import Mathlib

/-
Verification of the `input_libcamera` plugin of mjpg-streamer
(`src/mjpg-streamer-experimental/plugins/input_libcamera/input_libcamera.cpp`).

The source file contains two variants of the plugin (a software-encoding
RGB888 variant and a direct-MJPEG variant); the functions modelled here
(`copy_frame`, `worker_cleanup`, `input_init`, `input_run`, `input_stop`,
`input_cmd`, and the worker capture loop) are textually identical, or
identical up to logging, in the two variants, so a single embedding covers
both.  Machine integers are modelled as `Nat`/`Int`; heap buffers as
`Option (List Nat)` with `none` standing for a NULL pointer; the outcomes of
external calls that can fail (`malloc`, `pthread_create`, `mmap`,
`queueRequest`, `gettimeofday`) are explicit parameters.
-/

namespace InputLibcamera

/-- Modelled from the spec: the per-channel slot `pglobal->in[k]` of the
streamer core's global structure.  Its declaration lives in
`mjpg_streamer.h`, which is not among the plugin sources; the fields `buf`
(heap buffer, `none` models a NULL pointer), `size`, and `timestamp` are the
ones this plugin's code reads and writes (the mutex `db` and condition
`db_update` are modelled as the lock/broadcast entries of `FxLog` below).
The spec's InputChannel data model additionally lists a frame sequence
number and a liveness flag; they appear here as `seq` and `alive`, following
the spec's words. -/
structure InChannel where
  buf : Option (List Nat)
  size : Nat
  timestamp : Nat
  seq : Nat
  alive : Bool
deriving DecidableEq

/-- The process-wide state reachable through `pglobal`: the stop flag and the
array of input channels. -/
structure Globals where
  stop : Bool
  inCh : List InChannel
deriving DecidableEq

/-- Log of the synchronisation side effects of one call: which channels'
`db` mutex was acquired, which channels' `db_update` condition was
broadcast, and how many `free` calls were issued on channel frame buffers. -/
structure FxLog where
  locked : List Nat
  bcasts : List Nat
  frees : Nat
deriving DecidableEq

/-- In-place update of the `i`-th element of a list (no-op when out of
range), modelling a write through `pglobal->in[i]`. -/
def modifyIdx : List α → Nat → (α → α) → List α
  | [], _, _ => []
  | a :: t, 0, f => f a :: t
  | a :: t, n + 1, f => a :: modifyIdx t n f

/-- `copy_frame(buffer, length)` (lines 398-424 and, textually identical,
lines 1009-1035): lock `in[i].db`; if the old `buf` is non-NULL, `free` it;
`buf = malloc(length)` — the parameter `allocOk` is the outcome of that
allocation; on failure print, unlock and return (the failed `malloc` has
left `buf` NULL, and `size`/`timestamp` keep their old values); on success
`memcpy` the published bytes into `buf`, set `size = length`, set
`timestamp` to the `gettimeofday` result (parameter `ts`), broadcast
`db_update`, and unlock.  `i` is the static `plugin_number`. -/
def copy_frame (i : Nat) (allocOk : Bool) (buffer : List Nat) (ts : Nat)
    (g : Globals) : Globals × FxLog :=
  match allocOk with
  | true =>
    ({ g with inCh := modifyIdx g.inCh i fun c =>
        { c with buf := some buffer, size := buffer.length, timestamp := ts } },
     { locked := [i], bcasts := [i],
       frees := if (g.inCh[i]?.bind fun c => c.buf).isSome then 1 else 0 })
  | false =>
    ({ g with inCh := modifyIdx g.inCh i fun c => { c with buf := none } },
     { locked := [i], bcasts := [],
       frees := if (g.inCh[i]?.bind fun c => c.buf).isSome then 1 else 0 })

theorem modifyIdx_getElem? (l : List α) (i : Nat) (f : α → α) (j : Nat) :
    (modifyIdx l i f)[j]? = if j = i then l[i]?.map f else l[j]? := by
  induction l generalizing i j with
  | nil => simp [modifyIdx]
  | cons a t ih =>
    cases i with
    | zero =>
      cases j with
      | zero => simp [modifyIdx]
      | succ j => simp [modifyIdx]
    | succ i =>
      cases j with
      | zero => simp [modifyIdx]
      | succ j => simpa [modifyIdx] using ih i j

theorem modifyIdx_length (l : List α) (i : Nat) (f : α → α) :
    (modifyIdx l i f).length = l.length := by
  induction l generalizing i with
  | nil => rfl
  | cons a t ih =>
    cases i with
    | zero => rfl
    | succ i => simpa [modifyIdx] using ih i

theorem modifyIdx_modifyIdx (l : List α) (i : Nat) (f g : α → α) :
    modifyIdx (modifyIdx l i f) i g = modifyIdx l i fun a => g (f a) := by
  induction l generalizing i with
  | nil => rfl
  | cons a t ih =>
    cases i with
    | zero => rfl
    | succ i => simpa [modifyIdx] using ih i

/-- A concrete channel holding a published 3-byte frame. -/
def chA : InChannel :=
  { buf := some [9, 9, 9], size := 3, timestamp := 11, seq := 4, alive := true }

/-- A concrete global state with one channel, for concrete evaluations. -/
def gA : Globals := { stop := false, inCh := [chA] }

/-- A concrete channel whose spec-level liveness flag is cleared. -/
def chDead : InChannel :=
  { buf := some [7], size := 1, timestamp := 0, seq := 2, alive := false }

/-- A concrete global state whose only channel is dead. -/
def gDead : Globals := { stop := false, inCh := [chDead] }

/-- A concrete two-channel global state, for channel-isolation evaluations. -/
def gB : Globals := { stop := false, inCh := [chA, chDead] }

/-- Writes the spec-level liveness flag of channel `i`. -/
def setAlive (b : Bool) (i : Nat) (g : Globals) : Globals :=
  { g with inCh := modifyIdx g.inCh i fun c => { c with alive := b } }

/-- C1 counterexample: publishing `[5, 6]` into channel 0 of `gA` (which
holds the complete frame `[9, 9, 9]` of length 3) with the internal
allocation failing leaves the store holding neither the previous frame nor
the new one: the buffer pointer is NULL while the size field still reads 3 —
a mixture, and not the state from before the call. -/
theorem copy_frame_alloc_fail_tears :
    ((copy_frame 0 false [5, 6] 12 gA).1.inCh[0]? ≠ some chA) ∧
    (((copy_frame 0 false [5, 6] 12 gA).1.inCh[0]?).map
        (fun c => (c.buf, c.size)) ≠ some (some [5, 6], 2)) ∧
    (((copy_frame 0 false [5, 6] 12 gA).1.inCh[0]?).map
        (fun c => (c.buf, c.size)) = some (none, 3)) := by
  decide

/-- C1 (amended): on successful allocation the store holds exactly the new
frame — the published bytes with `size` equal to their exact length and a
fresh timestamp, all other channel fields untouched.  On allocation failure
the previous frame is not preserved: its buffer has been freed and the
pointer is NULL, while `size` and `timestamp` keep the previous frame's
values, and no waiter is woken. -/
theorem copy_frame_publish_or_discard (i : Nat) (buffer : List Nat) (ts : Nat)
    (g : Globals) (c : InChannel) (h : g.inCh[i]? = some c) :
    (copy_frame i true buffer ts g).1.inCh[i]? =
      some { c with buf := some buffer, size := buffer.length, timestamp := ts } ∧
    (copy_frame i false buffer ts g).1.inCh[i]? = some { c with buf := none } ∧
    (copy_frame i false buffer ts g).2.bcasts = [] := by
  refine ⟨?_, ?_, rfl⟩ <;> simp [copy_frame, modifyIdx_getElem?, h]

/-- C1 witness: the amended theorem evaluated at the concrete state `gA`. -/
theorem copy_frame_publish_or_discard_witness :
    (copy_frame 0 true [5, 6] 12 gA).1.inCh[0]? =
      some { buf := some [5, 6], size := 2, timestamp := 12, seq := 4, alive := true } ∧
    (copy_frame 0 false [5, 6] 12 gA).2.bcasts = [] :=
  ⟨(copy_frame_publish_or_discard 0 [5, 6] 12 gA chA rfl).1,
   (copy_frame_publish_or_discard 0 [5, 6] 12 gA chA rfl).2.2⟩

/-- C2 counterexample: channel 0 of `gA` has sequence number 4; after a
successful publish its sequence number is still 4, not 4 + 1 — `copy_frame`
never writes a sequence number. -/
theorem copy_frame_seq_not_incremented :
    (((copy_frame 0 true [5, 6] 12 gA).1.inCh[0]?).map InChannel.seq = some 4) ∧
    (((copy_frame 0 true [5, 6] 12 gA).1.inCh[0]?).map InChannel.seq ≠ some (4 + 1)) := by
  decide

/-- C2 (amended): a publish leaves every channel's sequence number exactly as
it was — `copy_frame` maintains no sequence counter at all; freshness is
signalled through the `db_update` broadcast and the updated timestamp only. -/
theorem copy_frame_seq_unchanged (i : Nat) (a : Bool) (buffer : List Nat)
    (ts : Nat) (g : Globals) (j : Nat) :
    ((copy_frame i a buffer ts g).1.inCh[j]?).map InChannel.seq =
      (g.inCh[j]?).map InChannel.seq := by
  cases a <;>
  · simp only [copy_frame, modifyIdx_getElem?]
    split
    · next hji =>
        subst hji
        cases g.inCh[j]? <;> simp
    · rfl

/-- C4 counterexample: channel 0 of `gDead` has its liveness flag cleared,
yet a publish into it still replaces the stored frame and still broadcasts
to the channel's waiters — the publish is not a no-op on a dead channel (and
`copy_frame` returns no status at all). -/
theorem copy_frame_dead_channel_publishes :
    ((gDead.inCh[0]?).map InChannel.alive = some false) ∧
    ((copy_frame 0 true [5, 6] 9 gDead).1 ≠ gDead) ∧
    ((copy_frame 0 true [5, 6] 9 gDead).2.bcasts = [0]) := by
  decide

/-- C4 (amended): `copy_frame` never consults the liveness flag: its result
is the same, frame replacement, broadcast, and free count included, whatever
value the flag holds — publish into a dead channel proceeds exactly as into
a live one, and the function returns no error signal (its C type is void). -/
theorem copy_frame_ignores_alive (i : Nat) (a : Bool) (buffer : List Nat)
    (ts : Nat) (g : Globals) (b : Bool) :
    (copy_frame i a buffer ts (setAlive b i g)).1 =
      setAlive b i (copy_frame i a buffer ts g).1 ∧
    (copy_frame i a buffer ts (setAlive b i g)).2 =
      (copy_frame i a buffer ts g).2 := by
  have hbuf : ((setAlive b i g).inCh[i]?.bind fun c => c.buf) =
      (g.inCh[i]?.bind fun c => c.buf) := by
    simp only [setAlive, modifyIdx_getElem?, if_pos rfl]
    cases g.inCh[i]? <;> simp
  cases a <;>
    refine ⟨?_, by simp only [copy_frame, hbuf]⟩ <;>
    · simp only [copy_frame, setAlive, modifyIdx_modifyIdx]

/-- C8: a publish into channel `i` acquires only channel `i`'s lock,
broadcasts only on channel `i`, leaves the stop flag and every other
channel's state untouched, preserves the channel count, and within channel
`i` changes nothing besides the frame buffer, size and timestamp (the
sequence and liveness fields are preserved). -/
theorem copy_frame_channel_isolated (i : Nat) (a : Bool) (buffer : List Nat)
    (ts : Nat) (g : Globals) :
    ((copy_frame i a buffer ts g).2.locked = [i]) ∧
    (∀ j, j ∈ (copy_frame i a buffer ts g).2.bcasts → j = i) ∧
    ((copy_frame i a buffer ts g).1.stop = g.stop) ∧
    ((copy_frame i a buffer ts g).1.inCh.length = g.inCh.length) ∧
    (∀ j, j ≠ i → (copy_frame i a buffer ts g).1.inCh[j]? = g.inCh[j]?) ∧
    (((copy_frame i a buffer ts g).1.inCh[i]?).map (fun c => (c.seq, c.alive)) =
      (g.inCh[i]?).map fun c => (c.seq, c.alive)) := by
  cases a with
  | false =>
    refine ⟨rfl, ?_, rfl, modifyIdx_length .., ?_, ?_⟩
    · intro j hj
      simp [copy_frame] at hj
    · intro j hj
      simp [copy_frame, modifyIdx_getElem?, hj]
    · simp only [copy_frame, modifyIdx_getElem?, if_pos rfl]
      cases g.inCh[i]? <;> simp
  | true =>
    refine ⟨rfl, ?_, rfl, modifyIdx_length .., ?_, ?_⟩
    · intro j hj
      simpa [copy_frame] using hj
    · intro j hj
      simp [copy_frame, modifyIdx_getElem?, hj]
    · simp only [copy_frame, modifyIdx_getElem?, if_pos rfl]
      cases g.inCh[i]? <;> simp

/-- C8 witness: the isolation theorem evaluated at the concrete two-channel
state `gB`: publishing into channel 0 leaves channel 1 untouched and locks
only channel 0. -/
theorem copy_frame_channel_isolated_witness :
    ((copy_frame 0 true [1] 2 gB).1.inCh[1]? = gB.inCh[1]?) ∧
    ((copy_frame 0 true [1] 2 gB).2.locked = [0]) :=
  ⟨(copy_frame_channel_isolated 0 true [1] 2 gB).2.2.2.2.1 1 (by decide),
   (copy_frame_channel_isolated 0 true [1] 2 gB).1⟩

/-- The state of the static `worker` pthread handle: whether `pthread_create`
has succeeded for it, and whether `pthread_detach` has been applied to it. -/
structure ThreadState where
  created : Bool
  detached : Bool
deriving DecidableEq

/-- POSIX defines `pthread_join` only on a joinable thread — one that was
created and has not been detached; joining a detached (or never-created)
thread handle is undefined behaviour and in particular does not provide
block-until-termination semantics. -/
def pthread_join_ok (t : ThreadState) : Bool := t.created && !t.detached

/-- The static camera parameters of the plugin (`width`, `height`, `fps`,
`quality`, `camera_id`), the only statics the parameter-parsing loop of
`input_init` writes. -/
structure CamParams where
  width : Int
  height : Int
  fps : Int
  quality : Int
  camera_id : Int
deriving DecidableEq

/-- The plugin's whole mutable state: the global structure `*pglobal`, the
static `worker` thread handle, the static camera parameters, the static
`plugin_number`, `worker_cleanup`'s one-shot `first_run` flag (`firstRun`),
and a running count of `free` calls issued on the channel's frame buffer
(for double-free reasoning). -/
structure ProcState where
  g : Globals
  worker : ThreadState
  params : CamParams
  pluginNumber : Nat
  firstRun : Bool
  frees : Nat
deriving DecidableEq

/-- `worker_cleanup` (lines 565-580 and, textually identical, lines
1125-1140): a static `first_run` flag makes the body one-shot — on any call
after the first it logs and returns; on the first call it clears the flag
and, if `in[plugin_number].buf` is non-NULL, frees it and sets it to NULL. -/
def worker_cleanup (s : ProcState) : ProcState :=
  match s.firstRun with
  | false => s
  | true =>
    let s1 := { s with firstRun := false }
    match s1.g.inCh[s1.pluginNumber]?.bind fun c => c.buf with
    | some _ =>
      let cleared := modifyIdx s1.g.inCh s1.pluginNumber fun c => { c with buf := none }
      { s1 with g := { s1.g with inCh := cleared }, frees := s1.frees + 1 }
    | none => s1

/-- `n` successive calls of `worker_cleanup`. -/
def cleanup_iter : Nat → ProcState → ProcState
  | 0, s => s
  | n + 1, s => cleanup_iter n (worker_cleanup s)

/-- The argument-parsing loop of `input_init` (lines 599-644): each
recognised option consumes the following argument through `atoi` (libc,
abstracted as a parameter); `-h`/`--help` prints the help text and returns
1; a recognised option with no following value returns 1; an unrecognised
argument is skipped.  The loop reads and writes the static camera
parameters only. -/
def parse_params (atoi : String → Int) : List String → CamParams → CamParams × Int
  | [], p => (p, 0)
  | a :: rest, p =>
    if a = "-h" || a = "--help" then (p, 1)
    else if a = "-fps" || a = "--framerate" then
      match rest with
      | [] => (p, 1)
      | v :: rest1 => parse_params atoi rest1 { p with fps := atoi v }
    else if a = "-x" || a = "--width" then
      match rest with
      | [] => (p, 1)
      | v :: rest1 => parse_params atoi rest1 { p with width := atoi v }
    else if a = "-y" || a = "--height" then
      match rest with
      | [] => (p, 1)
      | v :: rest1 => parse_params atoi rest1 { p with height := atoi v }
    else if a = "-quality" then
      match rest with
      | [] => (p, 1)
      | v :: rest1 => parse_params atoi rest1 { p with quality := atoi v }
    else if a = "-camera" then
      match rest with
      | [] => (p, 1)
      | v :: rest1 => parse_params atoi rest1 { p with camera_id := atoi v }
    else parse_params atoi rest p

/-- `input_init` (lines 588-652 and 1148-1205): record `plugin_number = id`
and the global pointer, then run the parameter-parsing loop over the
argument vector; the parsed values land in the static camera parameters and
the return status is 0 on success and 1 on a parse error or help request. -/
def input_init (atoi : String → Int) (argv : List String) (id : Nat)
    (s : ProcState) : ProcState × Int :=
  let r := parse_params atoi argv s.params
  ({ s with pluginNumber := id, params := r.1 }, r.2)

/-- `input_run` (lines 680-696 and 1233-1245): set `in[id].buf = NULL` and
`in[id].size = 0`; `pthread_create` the worker (outcome: parameter
`createOk`) — on failure call `worker_cleanup` and return -1; on success
call `pthread_detach(worker)` and return 0. -/
def input_run (createOk : Bool) (id : Nat) (s : ProcState) : ProcState × Int :=
  let cleared := modifyIdx s.g.inCh id fun c => { c with buf := none, size := 0 }
  let s1 := { s with g := { s.g with inCh := cleared } }
  match createOk with
  | true =>
    ({ s1 with worker := { created := true, detached := true } }, 0)
  | false =>
    (worker_cleanup s1, -1)

/-- `input_stop` (lines 659-673 and, textually identical, 1212-1226): if the
stop flag is already set, return 0 at once — the middle component `none`
records that no join was performed; otherwise set the stop flag and call
`pthread_join(worker, NULL)` — the middle component `some b` records that a
join was performed, with `b = pthread_join_ok` at that moment, i.e. whether
the joined handle was actually joinable so that the call has defined POSIX
semantics.  The status returned is 0 on both paths. -/
def input_stop (s : ProcState) : ProcState × Option Bool × Int :=
  match s.g.stop with
  | true => (s, none, 0)
  | false =>
    let s1 := { s with g := { s.g with stop := true } }
    (s1, some (pthread_join_ok s1.worker), 0)

/-- `input_cmd` (lines 703-709 and, textually identical, 1252-1258): log the
received command and return 0 — no control id, group or value is examined
("Commands not yet implemented"). -/
def input_cmd (plugin : Int) (control_id : Nat) (group : Nat) (value : Int) :
    Int := 0

/-- The status value this plugin's operations document as success:
`input_init`'s header comment reads "Return Value: 0 if everything is OK,
other values signal an error", and `input_run` returns 0 on success and -1
on failure. -/
def success_status : Int := 0

/-- A concrete fresh process state (stop flag clear, worker not created,
default camera parameters, channel 0 holding frame `chA`). -/
def s0 : ProcState :=
  { g := { stop := false, inCh := [chA] },
    worker := { created := false, detached := false },
    params := { width := 640, height := 480, fps := 30, quality := 85, camera_id := 0 },
    pluginNumber := 0,
    firstRun := true,
    frees := 0 }

/-- C3: evaluating the code on the failing input.  After a successful
`input_run` the worker thread exists but has been detached
(`pthread_detach` at the end of `input_run`), so the `pthread_join` that
the subsequent `input_stop` performs is applied to a non-joinable thread:
POSIX leaves that undefined, so the call has no defined
block-until-termination (join) semantics, contradicting both the claim and
the code's own comment "Wait for worker thread". -/
theorem input_stop_join_undefined :
    ((input_run true 0 s0).2 = 0) ∧
    ((input_run true 0 s0).1.worker.created = true) ∧
    ((input_run true 0 s0).1.worker.detached = true) ∧
    ((input_stop (input_run true 0 s0).1).2.1 = some false) ∧
    ((input_stop (input_run true 0 s0).1).2.2 = 0) := by
  decide

/-- C5 counterexample: `input_cmd` called with an arbitrary concrete control
returns 0 — the very value this plugin's operations document as success —
rather than any distinct "not supported" status. -/
theorem input_cmd_returns_success_status :
    input_cmd 1 2 3 4 = success_status := rfl

/-- C5 (amended): `input_cmd` ignores its control id, group and value
entirely and returns 0 — the plugin's success status — for every command;
it never faults, but it also never produces a distinct "not supported"
status. -/
theorem input_cmd_always_zero (plugin : Int) (control_id : Nat) (group : Nat)
    (value : Int) : input_cmd plugin control_id group value = 0 := rfl

theorem worker_cleanup_noop (t : ProcState) (h : t.firstRun = false) :
    worker_cleanup t = t := by
  simp only [worker_cleanup, h]

theorem cleanup_iter_fixed (n : Nat) (t : ProcState) (h : t.firstRun = false) :
    cleanup_iter n t = t := by
  induction n with
  | zero => rfl
  | succ n ih => simpa [cleanup_iter, worker_cleanup_noop t h] using ih

/-- C10: `worker_cleanup` is one-shot and idempotent.  With the one-shot
flag still set and channel `plugin_number` present, the first call leaves
the channel's buffer pointer NULL and issues exactly one `free` when a
buffer was held (none otherwise); every state with the flag cleared is a
fixed point, so any positive number of successive calls equals a single
call — the buffer pointer stays NULL and no buffer is ever freed twice. -/
theorem worker_cleanup_one_shot (s : ProcState) (c : InChannel)
    (h : s.g.inCh[s.pluginNumber]? = some c) (hfr : s.firstRun = true) :
    (((worker_cleanup s).g.inCh[s.pluginNumber]?).map InChannel.buf = some none) ∧
    ((worker_cleanup s).frees = s.frees + (if c.buf.isSome then 1 else 0)) ∧
    ((worker_cleanup s).firstRun = false) ∧
    (∀ t : ProcState, t.firstRun = false → worker_cleanup t = t) ∧
    (∀ n, 1 ≤ n → cleanup_iter n s = cleanup_iter 1 s) := by
  have hone : ∀ n, 1 ≤ n → cleanup_iter n s = cleanup_iter 1 s := by
    intro n hn
    match n, hn with
    | 1, _ => rfl
    | n + 2, _ =>
      show cleanup_iter (n + 1) (worker_cleanup s) = cleanup_iter 0 (worker_cleanup s)
      have hf : (worker_cleanup s).firstRun = false := by
        simp only [worker_cleanup, hfr]
        cases hb : s.g.inCh[s.pluginNumber]?.bind fun c => c.buf <;> simp
      rw [cleanup_iter_fixed (n + 1) _ hf]
      rfl
  refine ⟨?_, ?_, ?_, worker_cleanup_noop, hone⟩ <;>
    simp only [worker_cleanup, hfr, h, Option.bind_some] <;>
    cases hb : c.buf <;>
    simp [hb, modifyIdx_getElem?, h]

/-- C10 witness: the one-shot theorem evaluated at the concrete state `s0`
(whose channel 0 holds a 3-byte frame): the first call nulls the buffer and
three calls have the same effect as one. -/
theorem worker_cleanup_one_shot_witness :
    (((worker_cleanup s0).g.inCh[0]?).map InChannel.buf = some none) ∧
    (cleanup_iter 3 s0 = cleanup_iter 1 s0) :=
  ⟨(worker_cleanup_one_shot s0 chA rfl rfl).1,
   (worker_cleanup_one_shot s0 chA rfl rfl).2.2.2.2 3 (by decide)⟩

/-- What one iteration of the worker capture loop observes from the other
threads: the value of `pglobal->stop` read at `while (!pglobal->stop)`; the
front of `ctx->completed_requests` reduced to the JPEG bytes that
`process_frame` would hand to `copy_frame` (`none` when the queue is
empty); whether `process_frame` reaches `copy_frame` (the `mmap` — and, in
the software-encoding variant, the plane check and `rgb_to_jpeg` — having
succeeded); the outcome of `copy_frame`'s allocation; the `gettimeofday`
value; and whether `queueRequest` succeeds on the requeue. -/
structure IterObs where
  stopObs : Bool
  pending : Option (List Nat)
  procOk : Bool
  allocOk : Bool
  ts : Nat
  requeueOk : Bool

/-- The worker thread's main capture loop (lines 516-550 and, identically
structured, lines 1084-1112), driven by a finite trace of per-iteration
observations.  Result: the final globals, the number of `copy_frame` calls
(publishes), and the total microseconds spent in `usleep`.  Each iteration
first checks the stop flag and exits immediately when it reads true; with a
completed request it processes it (one publish at most) and requeues,
`break`-ing if the requeue fails; with no request it sleeps exactly
`usleep(1000)` microseconds and loops. -/
def worker_loop (i : Nat) : List IterObs → Globals → Globals × Nat × Nat
  | [], g => (g, 0, 0)
  | o :: rest, g =>
    match o.stopObs with
    | true => (g, 0, 0)
    | false =>
      match o.pending with
      | some req =>
        let g1 := if o.procOk then (copy_frame i o.allocOk req o.ts g).1 else g
        let pub1 := if o.procOk then 1 else 0
        match o.requeueOk with
        | true =>
          let r := worker_loop i rest g1
          (r.1, pub1 + r.2.1, r.2.2)
        | false => (g1, pub1, 0)
      | none =>
        let r := worker_loop i rest g
        (r.1, r.2.1, r.2.2 + 1000)

/-- C7: the capture loop's shutdown discipline.  (a) An iteration that
observes the stop flag true terminates the loop on the spot: no further
publish, no further sleep, whatever observations would have followed.
(b) An idle iteration (no completed request) publishes nothing and adds
exactly the bounded `usleep(1000)` before the flag is re-checked — there is
no unbounded wait.  (c) Whatever prefix of iterations ran before the stop
flag is first observed true, everything after that observation is dead: the
loop equals the loop on the prefix alone.  (d) Every iteration publishes at
most one frame, so the iteration in flight when the flag is set contributes
at most one further frame. -/
theorem worker_loop_stop_bounded :
    (∀ (i : Nat) (o : IterObs) (rest : List IterObs) (g : Globals),
       o.stopObs = true → worker_loop i (o :: rest) g = (g, 0, 0)) ∧
    (∀ (i : Nat) (o : IterObs) (rest : List IterObs) (g : Globals),
       o.stopObs = false → o.pending = none →
       worker_loop i (o :: rest) g =
         ((worker_loop i rest g).1, (worker_loop i rest g).2.1,
          (worker_loop i rest g).2.2 + 1000)) ∧
    (∀ (i : Nat) (t : List IterObs) (o : IterObs) (rest : List IterObs)
       (g : Globals), o.stopObs = true →
       worker_loop i (t ++ o :: rest) g = worker_loop i t g) ∧
    (∀ (i : Nat) (t : List IterObs) (g : Globals),
       (worker_loop i t g).2.1 ≤ t.length) := by
  refine ⟨?_, ?_, ?_, ?_⟩
  · intro i o rest g h
    simp [worker_loop, h]
  · intro i o rest g h1 h2
    simp [worker_loop, h1, h2]
  · intro i t o rest g h
    induction t generalizing g with
    | nil => simp [worker_loop, h]
    | cons a t ih =>
      simp only [List.cons_append, worker_loop]
      cases a.stopObs with
      | true => rfl
      | false =>
        cases a.pending with
        | some req =>
          cases a.requeueOk with
          | true => simp [ih]
          | false => rfl
        | none => simp [ih]
  · intro i t g
    induction t generalizing g with
    | nil => simp [worker_loop]
    | cons a t ih =>
      simp only [worker_loop]
      cases a.stopObs with
      | true => simp
      | false =>
        cases a.pending with
        | some req =>
          cases a.requeueOk with
          | true =>
            cases a.procOk with
            | true =>
              have h1 := ih (copy_frame i a.allocOk req a.ts g).1
              simp
              omega
            | false =>
              have h1 := ih g
              simp
              omega
          | false => cases a.procOk <;> simp
        | none =>
          have h1 := ih g
          simp
          omega

/-- A concrete iteration observation in which the stop flag reads true. -/
def oStop : IterObs :=
  { stopObs := true, pending := none, procOk := true, allocOk := true,
    ts := 0, requeueOk := true }

/-- C7 witness: the shutdown-discipline theorem evaluated on a concrete
trace: an iteration observing the stop flag set ends the loop at once with
no publish and no sleep. -/
theorem worker_loop_stop_bounded_witness :
    worker_loop 0 [oStop] gA = (gA, 0, 0) :=
  worker_loop_stop_bounded.1 0 oStop [] gA rfl

/-- One state-changing event of the plugin: a call to one of the four
interface operations, one iteration of the worker thread's capture loop, or
a `worker_cleanup` call — every writer of the plugin's state. -/
inductive Op where
  | opInit (atoi : String → Int) (argv : List String) (id : Nat)
  | opRun (createOk : Bool) (id : Nat)
  | opStop
  | opCmd (plugin : Int) (control_id : Nat) (group : Nat) (value : Int)
  | opWorkerIter (o : IterObs)
  | opCleanup

/-- One worker-loop iteration as a transformer of the whole plugin state:
the `while (!pglobal->stop)` guard reads the actual flag, and when it is set
the iteration does nothing (the loop has exited); otherwise a completed
request that survives processing is published via `copy_frame`, and an
empty queue means a bounded sleep (no state change). -/
def workerIterStep (o : IterObs) (s : ProcState) : ProcState :=
  match s.g.stop with
  | true => s
  | false =>
    match o.pending with
    | some req =>
      match o.procOk with
      | true => { s with g := (copy_frame s.pluginNumber o.allocOk req o.ts s.g).1 }
      | false => s
    | none => s

/-- The transition function: how each event transforms the plugin state.
`input_cmd` reads nothing and writes nothing (it only returns 0). -/
def step (op : Op) (s : ProcState) : ProcState :=
  match op with
  | .opInit atoi argv id => (input_init atoi argv id s).1
  | .opRun ok id => (input_run ok id s).1
  | .opStop => (input_stop s).1
  | .opCmd _ _ _ _ => s
  | .opWorkerIter o => workerIterStep o s
  | .opCleanup => worker_cleanup s

theorem worker_cleanup_stop (s : ProcState) :
    (worker_cleanup s).g.stop = s.g.stop := by
  unfold worker_cleanup
  split
  · rfl
  · dsimp only
    split <;> rfl

/-- C6: the process-wide stop flag is monotone.  No event — `input_init`,
`input_run`, `input_stop`, `input_cmd`, a worker-loop iteration, or
`worker_cleanup` — ever writes false to it: a single step started with the
flag set leaves it set, and hence once `input_stop` has set it, every later
read by any sequence of further events observes true. -/
theorem stop_flag_monotone :
    (∀ (op : Op) (s : ProcState), s.g.stop = true → (step op s).g.stop = true) ∧
    (∀ (ops : List Op) (s : ProcState), s.g.stop = true →
       (List.foldl (fun t op => step op t) s ops).g.stop = true) := by
  have h1 : ∀ (op : Op) (s : ProcState), s.g.stop = true →
      (step op s).g.stop = true := by
    intro op s h
    cases op with
    | opInit atoi argv id => simpa [step, input_init] using h
    | opRun ok id =>
      cases ok with
      | true => simpa [step, input_run] using h
      | false =>
        show (worker_cleanup _).g.stop = true
        rw [worker_cleanup_stop]
        exact h
    | opStop => simp [step, input_stop, h]
    | opCmd plugin control_id group value => simpa [step] using h
    | opWorkerIter o => simp [step, workerIterStep, h]
    | opCleanup =>
      show (worker_cleanup s).g.stop = true
      rw [worker_cleanup_stop]
      exact h
  refine ⟨h1, ?_⟩
  intro ops
  induction ops with
  | nil => intro s h; simpa using h
  | cons op t ih =>
    intro s h
    simpa [List.foldl] using ih (step op s) (h1 op s h)

/-- A concrete process state whose stop flag is already set. -/
def sT : ProcState := { s0 with g := { stop := true, inCh := [chA] } }

/-- C6 witness: the monotonicity theorem evaluated at the concrete state
`sT` (stop flag set): one further `input_stop` leaves it set, and so does a
whole sequence of cleanup/stop/command events. -/
theorem stop_flag_monotone_witness :
    ((step Op.opStop sT).g.stop = true) ∧
    ((List.foldl (fun t op => step op t) sT
        [Op.opCleanup, Op.opStop, Op.opCmd 0 1 2 3]).g.stop = true) :=
  ⟨stop_flag_monotone.1 Op.opStop sT rfl,
   stop_flag_monotone.2 [Op.opCleanup, Op.opStop, Op.opCmd 0 1 2 3] sT rfl⟩

/-- One run of the scanline loop of `rgb_to_jpeg` (lines 363-378): for `x`
from 0 to `img_width - 1`, emit `src[2], src[1], src[0]` (R and B
exchanged, G kept) and advance both pointers by 3.  A row shorter than
`3 * w` would be an out-of-bounds read in C; the model stops there. -/
def swap_rb_line : Nat → List Nat → List Nat
  | 0, _ => []
  | w + 1, r :: gc :: b :: rest => b :: gc :: r :: swap_rb_line w rest
  | _ + 1, _ => []

/-- Scanline `y` of the RGB888 input buffer: the `3 * w` bytes starting at
`rgb_data + y * img_width * 3`. -/
def rowOf (data : List Nat) (w y : Nat) : List Nat :=
  (data.drop (y * (w * 3))).take (w * 3)

/-- `rgb_to_jpeg` (software-encoding variant, lines 323-391): `none` models
the `-1` error return, taken when `rgb_data` is NULL or the line-buffer
`malloc` fails (outcome: parameter `lineAllocOk`).  Otherwise every
scanline is passed through the R/B-swap loop and handed to the libjpeg
compressor — an external library, abstracted as the parameter `encode` —
and the function returns `(*jpeg_data, *jpeg_size)` with `*jpeg_size` set
to `outlen`, the exact number of bytes the compressor produced. -/
def rgb_to_jpeg (encode : List (List Nat) → List Nat) (lineAllocOk : Bool)
    (rgb_data : Option (List Nat)) (w h : Nat) : Option (List Nat × Nat) :=
  match rgb_data with
  | none => none
  | some data =>
    match lineAllocOk with
    | false => none
    | true =>
      let out := encode ((List.range h).map fun y => swap_rb_line w (rowOf data w y))
      some (out, out.length)

theorem swap_rb_line_pixel (w : Nat) :
    ∀ (src : List Nat) (x : Nat), x < w → 3 * w ≤ src.length →
      (swap_rb_line w src)[3 * x]? = src[3 * x + 2]? ∧
      (swap_rb_line w src)[3 * x + 1]? = src[3 * x + 1]? ∧
      (swap_rb_line w src)[3 * x + 2]? = src[3 * x]? := by
  induction w with
  | zero =>
    intro src x hx
    exact absurd hx (Nat.not_lt_zero x)
  | succ w ih =>
    intro src x hx hlen
    match src with
    | [] => simp at hlen
    | [_] => simp at hlen; omega
    | [_, _] => simp at hlen; omega
    | r :: gc :: b :: rest =>
      cases x with
      | zero => simp [swap_rb_line]
      | succ x =>
        have hx1 : x < w := Nat.lt_of_succ_lt_succ hx
        have hlen1 : 3 * w ≤ rest.length := by
          simp [List.length_cons] at hlen
          omega
        have h := ih rest x hx1 hlen1
        have e2 : 3 * (x + 1) + 2 = 3 * x + 2 + 1 + 1 + 1 := by omega
        have e1 : 3 * (x + 1) + 1 = 3 * x + 1 + 1 + 1 + 1 := by omega
        have e0 : 3 * (x + 1) = 3 * x + 1 + 1 + 1 := by omega
        rw [e2, e1, e0]
        simpa only [swap_rb_line, List.getElem?_cons_succ] using h

/-- C9: the software-encoding path.  Whenever `rgb_to_jpeg` succeeds, (a)
the input buffer was non-NULL and the bytes handed to the JPEG compressor
are exactly the input's scanlines with the R/B-swap loop applied, and the
reported size equals the exact length of the encoded output; and (b) the
swap loop really exchanges bytes 0 and 2 of every 3-byte pixel of a row
while keeping byte 1 — so every published frame encodes the
channel-swapped image, never the raw input ordering. -/
theorem rgb_to_jpeg_swaps_rb (encode : List (List Nat) → List Nat)
    (lineAllocOk : Bool) (rgb_data : Option (List Nat)) (w h : Nat)
    (out : List Nat × Nat)
    (hok : rgb_to_jpeg encode lineAllocOk rgb_data w h = some out) :
    (∃ data, rgb_data = some data ∧
       out.1 = encode ((List.range h).map fun y => swap_rb_line w (rowOf data w y)) ∧
       out.2 = out.1.length) ∧
    (∀ (src : List Nat) (x : Nat), x < w → 3 * w ≤ src.length →
       (swap_rb_line w src)[3 * x]? = src[3 * x + 2]? ∧
       (swap_rb_line w src)[3 * x + 1]? = src[3 * x + 1]? ∧
       (swap_rb_line w src)[3 * x + 2]? = src[3 * x]?) := by
  refine ⟨?_, swap_rb_line_pixel w⟩
  match rgb_data with
  | none => simp [rgb_to_jpeg] at hok
  | some data =>
    match lineAllocOk with
    | false => simp [rgb_to_jpeg] at hok
    | true =>
      refine ⟨data, rfl, ?_, ?_⟩ <;>
      · simp only [rgb_to_jpeg, Option.some.injEq] at hok
        rw [← hok]

/-- C9 witness: the theorem evaluated on a concrete 1x1 image `[10, 20, 30]`
with concatenation as the abstract compressor: the encoder is fed
`[30, 20, 10]` and the reported size is the exact output length 3, and byte
0 of the swapped row is byte 2 of the source row. -/
theorem rgb_to_jpeg_swaps_rb_witness :
    ((some [10, 20, 30] : Option (List Nat)) = some [10, 20, 30] ∧
      rgb_to_jpeg (fun rows => rows.flatten) true (some [10, 20, 30]) 1 1 =
        some ([30, 20, 10], 3) ∧
      (swap_rb_line 1 [10, 20, 30])[0]? = [10, 20, 30][2]?) :=
  ⟨rfl, rfl,
   ((rgb_to_jpeg_swaps_rb (fun rows => rows.flatten) true (some [10, 20, 30]) 1 1
      ([30, 20, 10], 3) rfl).2 [10, 20, 30] 0 (by decide) (by decide)).1⟩

end InputLibcamera
